import Mathlib

/-!
Shallow embedding of the LifeOS server (owenguoo/LifeOS) for verifying the
natural-language specification against the source.

Sections, in order:
* vector store service (src/server/app/services/vector_store.py)
* memory search / chatbot endpoints (src/server/app/api/v1/endpoints/memory.py)
* worker pipeline (src/server/video_processing/worker.py)
* adaptive polling loop (VideoProcessingWorker._wait_for_task_optimized)
* segment builder (src/server/video_injestion/ingestion.py)
* calendar datetime parsing (src/server/automations/calendar_integration.py)
* list-videos query (src/server/app/api/v1/endpoints/videos.py,
  src/server/database/supabase_client.py)

Scores, thresholds and time intervals are modelled as rationals; machine
floats in the source only carry these values around, no float-specific
behaviour is relied on by the claims.
-/

namespace LifeOS

/-! ### Vector store (src/server/app/services/vector_store.py) -/

/-- A point stored in the Qdrant collection.  `add_memory` writes payload
fields `user_id`, `video_id` and `timestamp` (vector_store.py lines 86-96).
The timestamp is modelled as an integer instant (the source stores an
ISO-8601 string and Qdrant compares datetimes). -/
structure StoredPoint where
  id : String
  payload_user_id : String
  payload_video_id : String
  payload_timestamp : Int
deriving DecidableEq, Repr

/-- The filter built by `VectorStoreService.search_memories`
(vector_store.py lines 120-140): a mandatory `user_id` match plus an
optional inclusive timestamp range. -/
def matchesFilter (user_id : String) (date_from date_to : Option Int)
    (p : StoredPoint) : Bool :=
  p.payload_user_id == user_id
    && (match date_from with
        | some d => decide (d ≤ p.payload_timestamp)
        | none => true)
    && (match date_to with
        | some d => decide (p.payload_timestamp ≤ d)
        | none => true)

/-- Insert a scored point into a list kept in descending score order. -/
def insertByScore (x : StoredPoint × ℚ) :
    List (StoredPoint × ℚ) → List (StoredPoint × ℚ)
  | [] => [x]
  | y :: ys => if y.2 ≤ x.2 then x :: y :: ys else y :: insertByScore x ys

/-- Sort scored points by descending score (Qdrant returns hits
best-score first). -/
def sortByScore : List (StoredPoint × ℚ) → List (StoredPoint × ℚ)
  | [] => []
  | x :: xs => insertByScore x (sortByScore xs)

/-- Semantics of `client.search` as invoked in
`VectorStoreService.search_memories` (vector_store.py lines 143-150):
keep the points that pass the payload filter and whose similarity score is
at least `score_threshold`, best score first, at most `limit` hits.
The store is modelled as a list of points paired with their cosine score
against the query vector. -/
def qdrantSearch (store : List (StoredPoint × ℚ)) (user_id : String)
    (date_from date_to : Option Int) (limit : ℕ) (score_threshold : ℚ) :
    List (StoredPoint × ℚ) :=
  (sortByScore (store.filter fun pq =>
      matchesFilter user_id date_from date_to pq.1
        && decide (score_threshold ≤ pq.2))).take limit

/-- `VectorStoreService.search_memories(user_id, query_vector, limit,
date_from, date_to, score_threshold)` (vector_store.py lines 107-177):
builds the user filter (plus optional range) and performs the search. -/
def searchMemoriesService (store : List (StoredPoint × ℚ)) (user_id : String)
    (limit : ℕ) (date_from date_to : Option Int) (score_threshold : ℚ) :
    List (StoredPoint × ℚ) :=
  qdrantSearch store user_id date_from date_to limit score_threshold

/-! ### Memory endpoints (src/server/app/api/v1/endpoints/memory.py) -/

/-- The user id hardcoded at memory.py line 126 in `search_memories`
(the authenticated `current_user.id` is commented out at line 127). -/
def hardcodedSearchUserId : String := "3561affa-b551-483c-be4d-a35c7b57a3fb"

/-- Python `x or d` on an optional float: `None` and `0.0` are both falsy,
so either yields the default `d`.  This is how
`request.score_threshold or 0.01` (memory.py line 132) and
`request.confidence_threshold or 0.01` (memory.py line 214) are written. -/
def pyOrFloat (x : Option ℚ) (d : ℚ) : ℚ :=
  match x with
  | none => d
  | some v => if v = 0 then d else v

/-- The vector hits produced by `POST /memory/search`
(`search_memories`, memory.py lines 110-133): the service is called with
the hardcoded user id — not `current_user.id` — and with
`score_threshold = request.score_threshold or 0.01`.  Each returned
result of the endpoint is built from exactly one of these hits. -/
def searchEndpointHits (store : List (StoredPoint × ℚ))
    (_current_user_id : String) (limit : ℕ) (date_from date_to : Option Int)
    (score_threshold : Option ℚ) : List (StoredPoint × ℚ) :=
  searchMemoriesService store hardcodedSearchUserId limit date_from date_to
    (pyOrFloat score_threshold (1/100))

/-- The vector hits produced by `POST /memory/chatbot`
(`chatbot_query`, memory.py lines 209-215): top 10 hits for the
authenticated user with `score_threshold = request.confidence_threshold
or 0.01`. -/
def chatbotEndpointHits (store : List (StoredPoint × ℚ))
    (current_user_id : String) (confidence_threshold : Option ℚ) :
    List (StoredPoint × ℚ) :=
  searchMemoriesService store current_user_id 10 none none
    (pyOrFloat confidence_threshold (1/100))

/-! ### Worker pipeline (src/server/video_processing/worker.py)

Epoch timestamps (Python floats) are modelled as integers; the ISO
rendering `datetime.fromtimestamp(ts).isoformat()` is injective in the
timestamp, so the `datetime` field is modelled by the timestamp itself. -/

/-- The user id hardcoded in
`VideoProcessingWorker.store_embedding_in_vector_db` (worker.py line 681)
and in `embed_and_store_video` (worker.py line 558, next to the comment
`TODO: Get user_id from metadata`). -/
def workerHardcodedUserId : String := "3561affa-b551-483c-be4d-a35c7b57a3fb"

/-- A queue job as built by `VideoQueueManager.add_video_segment`
(queue_manager.py lines 47-52): the segment path, the `user_id` carried in
the segment metadata (ingestion.py line 337), and the enqueue timestamp. -/
structure Job where
  video_path : String
  user_id : Option String
  timestamp : Int
deriving DecidableEq, Repr

/-- The analysis record returned by
`VideoProcessingWorker.analyze_video_optimized` (worker.py lines 436-473)
before `process_video_segment` augments it. -/
structure Analysis where
  video_id : String
  timestamp : Int
  date_time : Int
  detailed_summary : String
deriving DecidableEq, Repr

/-- The relational row built by `SupabaseManager.insert_video_analysis`
(supabase_client.py lines 42-51). -/
structure VideoRow where
  video_id : String
  timestamp : Int
  date_time : Int
  detailed_summary : String
  s3_link : Option String
  file_size : ℕ
  processed_at : Int
  user_id : Option String
deriving DecidableEq, Repr

/-- The retry loop of `analyze_video_optimized` (worker.py lines 442-473):
`gen a` is the outcome of the a-th `client.generate.text` call, attempts
are issued in order over the given index list (`range(max_retries)`), the
first success returns its summary, and failure of the last attempt
returns the string `Error after {max_retries} attempts: {e}`. -/
def summaryLoop (gen : ℕ → Except String String) (max_retries : ℕ) :
    List ℕ → String
  | [] => ""
  | [a] =>
    match gen a with
    | .ok s => s
    | .error e => "Error after " ++ toString max_retries ++ " attempts: " ++ e
  | a :: rest =>
    match gen a with
    | .ok s => s
    | .error _ => summaryLoop gen max_retries rest

/-- `analyze_video_optimized(video_id, timestamp, linking_uuid)` with
`max_retries = 3`: always returns a record keyed by the linking UUID; it
never raises and never marks the record with an `error` key. -/
def analyzeVideoOptimized (gen : ℕ → Except String String)
    (linking_uuid : String) (timestamp : Int) : Analysis :=
  { video_id := linking_uuid
    timestamp := timestamp
    date_time := timestamp
    detailed_summary := summaryLoop gen 3 [0, 1, 2] }

/-- Outcomes of the external calls one `process_video_segment` run makes,
and of the background tasks it spawns. -/
structure WorkerEnv where
  /-- `os.path.exists(video_path)` (worker.py line 155). -/
  fileExists : Bool
  /-- The linking UUID minted by `generate_linking_uuid` (line 159). -/
  linking_uuid : String
  /-- Result of `upload_video_optimized` (lines 163-181): the TwelveLabs
  video id, or `none` when the ingest task reported `failed`/`error`,
  timed out, or the call raised. -/
  uploadResult : Option String
  /-- Result of the S3 upload (lines 166-167, 183-185): `none` on
  exception or falsy URL. -/
  s3Result : Option String
  /-- Whether `create_video_embedding_task` returned a task
  (lines 169-171, 199). -/
  embeddingTaskCreated : Bool
  /-- Outcome of the a-th `client.generate.text` attempt. -/
  gen : ℕ → Except String String
  /-- Whether the Supabase insert `.execute()` returned data
  (supabase_client.py lines 54-60). -/
  supabaseInsertOk : Bool
  /-- Whether the background `process_embedding_task` extracted a vector
  and its `add_memory` upsert succeeded (worker.py lines 608-637). -/
  embeddingPipelineOk : Bool
  /-- Whether the fallback `embed_and_store_video_with_retry` succeeded
  (worker.py lines 588-606). -/
  retryEmbedOk : Bool
  /-- `os.path.getsize(video_path)` (line 218). -/
  fileSize : ℕ
  /-- `datetime.now()` at line 219. -/
  processedAt : Int

/-- Result dict of `process_video_segment`: either a dict carrying an
`error` key (lines 156, 179-181, 285) or the augmented analysis dict,
which never carries an `error` key. -/
inductive ProcResult where
  | errorRes (msg : String)
  | okRes (a : Analysis) (s3_url : Option String) (supabase_stored : Bool)
deriving DecidableEq, Repr

/-- Persistent effects of one `process_video_segment` run, including its
background tasks run to completion: the relational row inserted (if any),
the vector point upserted (if any), and whether an automation run was
dispatched. -/
structure WorkerEffects where
  insertedRow : Option VideoRow
  vectorPoint : Option StoredPoint
  automationDispatched : Bool
deriving DecidableEq, Repr

/-- `SupabaseManager.insert_video_analysis(analysis_data, user_id)`
(supabase_client.py lines 29-64): maps the augmented analysis onto the
`videos` row; both `timestamp` and `datetime` columns take the analysis
`datetime`. -/
def insertVideoAnalysisRow (a : Analysis) (s3_url : Option String)
    (file_size : ℕ) (processed_at : Int) (user_id : Option String) :
    VideoRow :=
  { video_id := a.video_id
    timestamp := a.date_time
    date_time := a.date_time
    detailed_summary := a.detailed_summary
    s3_link := s3_url
    file_size := file_size
    processed_at := processed_at
    user_id := user_id }

/-- The vector point built by `store_embedding_in_vector_db`
(worker.py lines 679-697) and upserted via `VectorStoreService.add_memory`
(vector_store.py lines 86-98): id and payload `video_id` are the linking
UUID, and the payload `user_id` is the HARDCODED constant, not the job
metadata's `user_id`. -/
def workerVectorPoint (linking_uuid : String) (timestamp : Int) :
    StoredPoint :=
  { id := linking_uuid
    payload_user_id := workerHardcodedUserId
    payload_video_id := linking_uuid
    payload_timestamp := timestamp }

/-- `VideoProcessingWorker.process_video_segment(job)` (worker.py lines
146-285), with its background embedding and automation tasks accounted to
completion.  Control flow from the source:
* missing file → error dict, no effects (line 155);
* ingest upload failed → error dict, no effects (lines 178-181);
* otherwise the analysis record is built (never an error), the Supabase
  insert is awaited (row inserted iff it succeeds), the automation task is
  started iff the summary is non-empty (line 235), and the vector point is
  stored by the background embedding path: via `process_embedding_task`
  when the embedding task was created (started at line 200, independent of
  the Supabase outcome), else via the retry fallback, which is only
  started when the Supabase insert succeeded (lines 259-270). -/
def processVideoSegment (env : WorkerEnv) (job : Job) :
    ProcResult × WorkerEffects :=
  if env.fileExists = false then
    (.errorRes ("Video file not found: " ++ job.video_path),
      ⟨none, none, false⟩)
  else
    match env.uploadResult with
    | none => (.errorRes "Failed to upload to TwelveLabs", ⟨none, none, false⟩)
    | some _tlVideoId =>
      let analysis := analyzeVideoOptimized env.gen env.linking_uuid job.timestamp
      let summary := analysis.detailed_summary
      let row := insertVideoAnalysisRow analysis env.s3Result env.fileSize
        env.processedAt job.user_id
      let insertedRow := if env.supabaseInsertOk then some row else none
      let vectorPoint :=
        if env.embeddingTaskCreated then
          (if env.embeddingPipelineOk then
            some (workerVectorPoint env.linking_uuid job.timestamp) else none)
        else if env.supabaseInsertOk && env.retryEmbedOk then
          some (workerVectorPoint env.linking_uuid job.timestamp)
        else none
      (.okRes analysis env.s3Result env.supabaseInsertOk,
        ⟨insertedRow, vectorPoint, summary ≠ ""⟩)

/-- One iteration of `process_loop` (worker.py lines 97-137) after a job
was popped: `processed_count` is incremented iff the result dict is truthy
and carries no `error` key; the loop body never stops the worker on a job
failure (only cancellation breaks), so the loop proceeds to the next pop. -/
def processLoopStep (processed_count : ℕ) (res : ProcResult) : ℕ :=
  match res with
  | .okRes _ _ _ => processed_count + 1
  | .errorRes _ => processed_count

/-! ### Adaptive polling (`_wait_for_task_optimized`, worker.py 393-434) -/

/-- One observation of the polling loop: the fresh task status returned by
`client.task.retrieve`, or a transport error raised by it.  `latency` is
the wall-clock time the retrieve call itself consumed. -/
inductive PollObs where
  | ready (video_id : String) (latency : ℚ)
  | failed (latency : ℚ)
  | errorStatus (latency : ℚ)
  | processing (latency : ℚ)
  | pending (latency : ℚ)
  | transport (latency : ℚ)
deriving DecidableEq, Repr

/-- Loop state of `_wait_for_task_optimized`: elapsed wall-clock time
since `start_time`, the current poll interval, and
`consecutive_failures`. -/
structure PollState where
  elapsed : ℚ
  interval : ℚ
  failures : ℕ
deriving DecidableEq, Repr

/-- The latency carried by an observation. -/
def PollObs.latency : PollObs → ℚ
  | .ready _ l => l
  | .failed l => l
  | .errorStatus l => l
  | .processing l => l
  | .pending l => l
  | .transport l => l

/-- The sleep the loop body performs after an observation (worker.py
lines 416-431): `min(polling_interval, current_interval)` on
`processing`, `min(2.0, current_interval * 1.2)` on any other
non-terminal status, and `min(2.0, 0.1 * 2^k)` after the k-th consecutive
transport error.  Terminal observations return without sleeping. -/
def pollSleep (p0 : ℚ) (s : PollState) : PollObs → ℚ
  | .ready _ _ => 0
  | .failed _ => 0
  | .errorStatus _ => 0
  | .processing _ => min p0 s.interval
  | .pending _ => min 2 (s.interval * (6/5))
  | .transport _ => min 2 ((1/10) * 2 ^ (s.failures + 1))

/-- One iteration of the `while` body: either the loop returns
(`ready` → the video id, `failed`/`error` → `None`), or the state is
advanced — `consecutive_failures` resets to 0 on any successful retrieve,
the interval is clamped per status, and `elapsed` grows by the retrieve
latency plus the sleep. -/
def pollStep (p0 : ℚ) (s : PollState) : PollObs → PollState ⊕ Option String
  | .ready v _ => .inr (some v)
  | .failed _ => .inr none
  | .errorStatus _ => .inr none
  | .processing l =>
    .inl { elapsed := s.elapsed + l + pollSleep p0 s (.processing l)
           interval := min p0 s.interval
           failures := 0 }
  | .pending l =>
    .inl { elapsed := s.elapsed + l + pollSleep p0 s (.pending l)
           interval := min 2 (s.interval * (6/5))
           failures := 0 }
  | .transport l =>
    .inl { elapsed := s.elapsed + l + pollSleep p0 s (.transport l)
           interval := s.interval
           failures := s.failures + 1 }

/-- The polling loop: before each retrieve the guard
`time.time() - start_time < max_wait_time` (180 s) is checked; the loop
returns `None` on timeout.  The returned list records the elapsed time at
which each retrieve was issued. -/
def pollRun (p0 : ℚ) : List PollObs → PollState → Option String × List ℚ
  | [], _ => (none, [])
  | o :: rest, s =>
    if s.elapsed < 180 then
      match pollStep p0 s o with
      | .inr r => (r, [s.elapsed])
      | .inl s2 =>
        let tail := pollRun p0 rest s2
        (tail.1, s.elapsed :: tail.2)
    else (none, [])

/-- Initial loop state: `current_interval = polling_interval`,
`consecutive_failures = 0`. -/
def pollInit (p0 : ℚ) : PollState := ⟨0, p0, 0⟩

/-- `_wait_for_task_optimized(task, polling_interval=0.5)` as called from
`upload_video_optimized` (worker.py lines 305-307). -/
def waitForTaskOptimized (obs : List PollObs) : Option String × List ℚ :=
  pollRun (1/2) obs (pollInit (1/2))


/-- A stored point owned by the hardcoded user, used to exercise the
search endpoint at a concrete input. -/
def bugPoint : StoredPoint :=
  { id := "aaaaaaaa-0000-0000-0000-000000000001"
    payload_user_id := hardcodedSearchUserId
    payload_video_id := "aaaaaaaa-0000-0000-0000-000000000001"
    payload_timestamp := 0 }

/-- A caller id distinct from the hardcoded one. -/
def otherCallerId : String := "11111111-1111-1111-1111-111111111111"

/-! Concrete inputs used to evaluate the worker pipeline. -/

/-- A fully healthy environment for one segment job. -/
def envOk : WorkerEnv :=
  { fileExists := true
    linking_uuid := "aaaaaaaa-0000-0000-0000-000000000002"
    uploadResult := some "tl-video-123"
    s3Result := some "https://bkt.s3.us-east-1.amazonaws.com/video_segments/seg.mp4"
    embeddingTaskCreated := true
    gen := fun _ => .ok "A person is typing at a desk."
    supabaseInsertOk := true
    embeddingPipelineOk := true
    retryEmbedOk := true
    fileSize := 123456
    processedAt := 1700000100 }

/-- The healthy job, owned by a user other than the hardcoded one. -/
def jobU1 : Job :=
  { video_path := "/tmp/segment_0001.mp4"
    user_id := some otherCallerId
    timestamp := 1700000000 }

/-- `envOk` with every summary-generation attempt raising. -/
def envSummaryFail : WorkerEnv :=
  { envOk with gen := fun _ => .error "generate.text unavailable" }

/-- `envOk` with the ingest task reporting a terminal failure, so
`upload_video_optimized` returned `None`. -/
def envIngestFail : WorkerEnv := { envOk with uploadResult := none }


/-! ### Segment builder (`create_video_segment`, ingestion.py 193-359)

The container is modelled by the frames the `cv2.VideoWriter` accepts;
muxing with the audio track is an external collaborator and does not
change the frame list the builder wrote. -/

/-- A captured frame: `isNone` models a `None` entry, `size` the numpy
`frame.size`.  The writer loop (ingestion.py lines 242-247) writes a frame
iff it is not `None` and `frame.size > 0`. -/
structure Frame where
  isNone : Bool
  size : ℕ
deriving DecidableEq, Repr

/-- The padding block (ingestion.py lines 220-233): when
`len(frames_data) < fps * segment_duration` and `frames_data` is
non-empty, `(last_frame.copy(), base_timestamp + (i - original_count + 1)
/ fps)` is appended for `i` in `range(original_count, expected_frames)`. -/
def padFrames (fps segment_duration : ℕ) (frames : List (Frame × ℚ)) :
    List (Frame × ℚ) :=
  let expected := fps * segment_duration
  if frames.length < expected ∧ frames ≠ [] then
    match frames.getLast? with
    | some lastPair =>
      frames ++ (List.range (expected - frames.length)).map
        (fun j => (lastPair.1, lastPair.2 + (Nat.cast j + 1) / (Nat.cast fps)))
    | none => frames
  else frames

/-- The metadata dict returned as `segment_info` (ingestion.py lines
327-338).  `video_path`, `resolution`, the wall-clock `timestamp` and
`user_id` are opaque to the claims and omitted. -/
structure SegmentInfo where
  segment_id : ℕ
  fps : ℕ
  frame_count : ℕ
  duration_seconds : ℚ
  audio_chunks : ℕ
  has_audio : Bool
deriving DecidableEq, Repr

/-- Result of `create_video_segment`: the metadata plus the number of
frames the writer actually put into the container. -/
structure SegmentResult where
  info : SegmentInfo
  containerFrames : ℕ
deriving DecidableEq, Repr

/-- `create_video_segment(frames_data, audio_data, segment_id)`
(ingestion.py lines 193-359): `None` on empty input (line 195), otherwise
pad, write the valid frames, and report `frame_count = len(frames_data)`
and `duration_seconds = len(frames_data) / fps` over the padded list
(lines 323-333). -/
def createVideoSegment (fps segment_duration : ℕ)
    (frames : List (Frame × ℚ)) (audio : List String) (segment_id : ℕ) :
    Option SegmentResult :=
  if frames = [] then none
  else
    let padded := padFrames fps segment_duration frames
    let written := (padded.filter
      (fun ft => !ft.1.isNone && decide (0 < ft.1.size))).length
    some { info :=
            { segment_id := segment_id
              fps := fps
              frame_count := padded.length
              duration_seconds := (padded.length : ℚ) / (fps : ℚ)
              audio_chunks := audio.length
              has_audio := audio ≠ [] }
           containerFrames := written }


/-! ### Calendar datetime parsing
(`CalendarIntegration._parse_event_datetime`, calendar_integration.py
226-348)

A Python datetime in `America/New_York` is reduced to the fields the
parser manipulates: the calendar day as a day count from a fixed Monday
epoch — so that Python's `date.weekday()` (Monday = 0) is `day mod 7` —
plus hour and minute. -/

structure PyDateTime where
  day : Int
  hour : ℕ
  minute : ℕ
deriving DecidableEq, Repr

/-- Python `datetime.weekday()`: Monday = 0, ..., Sunday = 6. -/
def PyDateTime.weekday (d : PyDateTime) : Int := d.day % 7

/-- `d + timedelta(days = n)`. -/
def PyDateTime.addDays (d : PyDateTime) (n : Int) : PyDateTime :=
  { d with day := d.day + n }

/-- `d.replace(hour = h, minute = m)`. -/
def PyDateTime.withTime (d : PyDateTime) (h m : ℕ) : PyDateTime :=
  { d with hour := h, minute := m }

/-- `d.replace(hour = h)` (minute untouched). -/
def PyDateTime.withHour (d : PyDateTime) (h : ℕ) : PyDateTime :=
  { d with hour := h }

/-- The observations the date branch makes of `date_str.lower()`:
substring containment of each keyword, checked in source order
(`today`, `tomorrow`, `next week`, `next month`, then `monday` ...
`sunday`), plus the outcome of the final ISO branch (lines 293-302:
`strptime('%Y-%m-%d')` with the year re-homing) when its regex matches.
The ISO computation itself involves calendar arithmetic external to the
claims, so its resulting datetime is supplied as data. -/
structure DateStr where
  hasToday : Bool
  hasTomorrow : Bool
  hasNextWeek : Bool
  hasNextMonth : Bool
  hasWeekday : ℕ → Bool
  isoTarget : Option PyDateTime

/-- The weekday branches (calendar_integration.py lines 257-292):
`days_ahead = target_weekday - base.weekday(); if days_ahead <= 0:
days_ahead += 7; target = base + timedelta(days = days_ahead)`. -/
def nextWeekday (base : PyDateTime) (w : ℕ) : PyDateTime :=
  let d0 : Int := (w : Int) - base.weekday
  let d : Int := if d0 ≤ 0 then d0 + 7 else d0
  base.addDays d

/-- The date chain (calendar_integration.py lines 245-302), in source
order; when nothing matches, `target_date` stays at `base_date`. -/
def parseDateChain (ds : DateStr) (base : PyDateTime) : PyDateTime :=
  if ds.hasToday then base
  else if ds.hasTomorrow then base.addDays 1
  else if ds.hasNextWeek then base.addDays 7
  else if ds.hasNextMonth then base.addDays 30
  else if ds.hasWeekday 0 then nextWeekday base 0
  else if ds.hasWeekday 1 then nextWeekday base 1
  else if ds.hasWeekday 2 then nextWeekday base 2
  else if ds.hasWeekday 3 then nextWeekday base 3
  else if ds.hasWeekday 4 then nextWeekday base 4
  else if ds.hasWeekday 5 then nextWeekday base 5
  else if ds.hasWeekday 6 then nextWeekday base 6
  else
    match ds.isoTarget with
    | some d => d
    | none => base

/-- Observations of `time_str.lower()` for the time branch (lines
304-338): descriptive keywords checked first, then the captures of
`re.search((\d{1,2}):?(\d{0,2})\s*(am|pm)?)` (hour, minute — 0 when the
group is empty — and the am/pm group, `true` = pm), then the captures of
the 24-hour `re.search((\d{1,2}):(\d{2}))`. -/
structure TimeStr where
  hasMorning : Bool
  hasAfternoon : Bool
  hasEvening : Bool
  hasNight : Bool
  timeMatch : Option (ℕ × ℕ × Option Bool)
  time24Match : Option (ℕ × ℕ)

/-- The time chain: returns the `target_time` variable and the updated
`target_date`.  NOTE (faithful to the source): the descriptive branches
set only `target_time` (lines 309-316) — they never write the hour into
`target_date`. -/
def parseTimeChain (ts : TimeStr) (d : PyDateTime) :
    Option ℕ × PyDateTime :=
  if ts.hasMorning then (some 9, d)
  else if ts.hasAfternoon then (some 14, d)
  else if ts.hasEvening then (some 18, d)
  else if ts.hasNight then (some 20, d)
  else
    match ts.timeMatch with
    | some (h, m, ampm) =>
      let h2 : ℕ :=
        if ampm = some true ∧ h ≠ 12 then h + 12
        else if ampm = some false ∧ h = 12 then 0
        else h
      (some h2, d.withTime h2 m)
    | none =>
      match ts.time24Match with
      | some (h, m) => (none, d.withTime h m)
      | none => (none, d)

/-- `_parse_event_datetime(date_str, time_str)` (lines 226-348):
`base_date = now.replace(hour=0, minute=0, ...)`; run the date chain if a
date string was given, then the time chain if a time string was given;
finally, if a time string was given but no `target_time` was parsed and
the hour is still 0, default the hour to 10. -/
def parseEventDatetime (dateStr : Option DateStr) (timeStr : Option TimeStr)
    (now : PyDateTime) : PyDateTime :=
  let base : PyDateTime := { now with hour := 0, minute := 0 }
  let target1 :=
    match dateStr with
    | some ds => parseDateChain ds base
    | none => base
  let tt :=
    match timeStr with
    | some ts => parseTimeChain ts target1
    | none => (none, target1)
  if timeStr.isSome ∧ tt.1 = none ∧ tt.2.hour = 0 then tt.2.withHour 10
  else tt.2

/-- A date string containing only the word `today`. -/
def todayDate : DateStr :=
  { hasToday := true, hasTomorrow := false, hasNextWeek := false
    hasNextMonth := false, hasWeekday := fun _ => false, isoTarget := none }

/-- A time string containing the word `morning` and no digits. -/
def morningTime : TimeStr :=
  { hasMorning := true, hasAfternoon := false, hasEvening := false
    hasNight := false, timeMatch := none, time24Match := none }

/-- A time string with no descriptive keyword and no parsable digits
(e.g. `midday`). -/
def vagueTime : TimeStr :=
  { hasMorning := false, hasAfternoon := false, hasEvening := false
    hasNight := false, timeMatch := none, time24Match := none }

/-- A concrete `now`: day 20000 from the Monday epoch (a Tuesday),
15:30. -/
def someNow : PyDateTime := { day := 20000, hour := 15, minute := 30 }

/-- A date string containing only the weekday name `thursday`. -/
def thursdayDate : DateStr :=
  { hasToday := false, hasTomorrow := false, hasNextWeek := false
    hasNextMonth := false, hasWeekday := fun j => decide (j = 3)
    isoTarget := none }


/-! ### List videos (videos.py 11-31, supabase_client.py 94-118) -/

/-- A row of the `videos` table as stored: the inserted record plus the
`created_at` column the database fills by default. -/
structure StoredVideoRow where
  row : VideoRow
  created_at : Int
deriving DecidableEq, Repr

/-- Insert into a list kept in descending `created_at` order. -/
def insertByCreated (x : StoredVideoRow) :
    List StoredVideoRow → List StoredVideoRow
  | [] => [x]
  | y :: ys =>
    if y.created_at ≤ x.created_at then x :: y :: ys
    else y :: insertByCreated x ys

/-- Sort rows by descending `created_at`
(the query's `.order("created_at", desc=True)`). -/
def sortByCreated : List StoredVideoRow → List StoredVideoRow
  | [] => []
  | x :: xs => insertByCreated x (sortByCreated xs)

/-- `SupabaseManager.get_user_videos(user_id, limit, offset)`
(supabase_client.py lines 107-112): select rows with matching `user_id`,
order by `created_at` descending, and return rows `offset` through
`offset + limit - 1` inclusive. -/
def getUserVideosQuery (db : List StoredVideoRow) (user_id : String)
    (limit offset : ℕ) : List StoredVideoRow :=
  (((sortByCreated (db.filter
      (fun r => r.row.user_id == some user_id))).drop offset).take limit)

/-- `GET /videos` (`get_user_videos`, videos.py lines 11-31): calls the
query for the authenticated user and returns the rows UNCHANGED — no
presigned-URL rewriting happens on this path (only the highlights
endpoint rewrites `s3_link`). -/
def getUserVideosEndpoint (db : List StoredVideoRow)
    (current_user_id : String) (limit offset : ℕ) : List StoredVideoRow :=
  getUserVideosQuery db current_user_id limit offset

/-- Modelled from the spec: the blob store's presigned-URL function
(`presign(get_object, key, ttl=3600 s) → url`, spec section 6).  The
implementation delegates to boto3's `generate_presigned_url`
(s3_service.py line 73), external to src; per the spec it returns the
object URL extended with a signature query string, so it never returns a
bare stored URL unchanged. -/
def presignUrl (url : String) : String :=
  url ++ "?X-Amz-Expires=3600&X-Amz-Signature=sig"

/-- A stored S3 URL in the canonical bucket format. -/
def storedUrl : String :=
  "https://bkt.s3.us-east-1.amazonaws.com/video_segments/a.mp4"

/-- A stored videos row owned by the other caller, with a non-null
`s3_link`. -/
def dbRowA : StoredVideoRow :=
  { row :=
      { video_id := "aaaaaaaa-0000-0000-0000-000000000003"
        timestamp := 1700000000
        date_time := 1700000000
        detailed_summary := "a walk in the park"
        s3_link := some storedUrl
        file_size := 10
        processed_at := 1700000100
        user_id := some otherCallerId }
    created_at := 100 }


end LifeOS

open LifeOS

/-! Helper lemmas about the search path. -/

theorem mem_insertByScore {x y : StoredPoint × ℚ}
    {l : List (StoredPoint × ℚ)} (h : y ∈ insertByScore x l) :
    y = x ∨ y ∈ l := by
  induction l with
  | nil => simpa [insertByScore] using h
  | cons a as ih =>
    by_cases hc : a.2 ≤ x.2
    · simp only [insertByScore, if_pos hc, List.mem_cons] at h
      rcases h with h | h | h
      · exact Or.inl h
      · exact Or.inr (by simp [h])
      · exact Or.inr (List.mem_cons_of_mem a h)
    · simp only [insertByScore, if_neg hc, List.mem_cons] at h
      rcases h with h | h
      · exact Or.inr (by simp [h])
      · rcases ih h with h | h
        · exact Or.inl h
        · exact Or.inr (List.mem_cons_of_mem a h)

theorem mem_sortByScore {y : StoredPoint × ℚ} {l : List (StoredPoint × ℚ)}
    (h : y ∈ sortByScore l) : y ∈ l := by
  induction l with
  | nil => simp [sortByScore] at h
  | cons a as ih =>
    rcases mem_insertByScore h with h | h
    · simp [h]
    · exact List.mem_cons_of_mem a (ih h)

/-- Every hit returned by the modelled Qdrant search passes the payload
filter and the score threshold. -/
theorem qdrantSearch_sound {store : List (StoredPoint × ℚ)}
    {user_id : String} {date_from date_to : Option Int} {limit : ℕ}
    {thr : ℚ} {hit : StoredPoint × ℚ}
    (h : hit ∈ qdrantSearch store user_id date_from date_to limit thr) :
    matchesFilter user_id date_from date_to hit.1 = true ∧ thr ≤ hit.2 := by
  have h1 := List.mem_of_mem_take h
  have h2 := mem_sortByScore h1
  have h3 := List.of_mem_filter h2
  simp only [Bool.and_eq_true, decide_eq_true_eq] at h3
  exact ⟨h3.1, h3.2⟩

/-- Hits of the search service all carry the queried payload `user_id`. -/
theorem searchMemoriesService_user_id {store : List (StoredPoint × ℚ)}
    {user_id : String} {limit : ℕ} {date_from date_to : Option Int}
    {thr : ℚ} {hit : StoredPoint × ℚ}
    (h : hit ∈ searchMemoriesService store user_id limit date_from date_to thr) :
    hit.1.payload_user_id = user_id := by
  have := (qdrantSearch_sound h).1
  simp only [matchesFilter, Bool.and_eq_true, beq_iff_eq] at this
  exact this.1.1


/-- C1.  The claim says every result of `POST /memory/search` has vector
payload `user_id` equal to the caller's authenticated `user_id`.  The code
refutes this: `search_memories` (memory.py line 126) passes the hardcoded
UUID `3561affa-b551-483c-be4d-a35c7b57a3fb` to the vector search instead of
`current_user.id`, so a caller with a different id receives results owned
by the hardcoded user.  Evaluated here at a concrete failing input: caller
`11111111-1111-1111-1111-111111111111`, store holding one point owned by
the hardcoded user with score 1/2. -/
theorem C1_search_returns_foreign_user_results :
    searchEndpointHits [(bugPoint, (1:ℚ)/2)] otherCallerId 10 none none none
        = [(bugPoint, (1:ℚ)/2)]
      ∧ bugPoint.payload_user_id ≠ otherCallerId
      ∧ hardcodedSearchUserId ≠ otherCallerId := by
  refine ⟨?_, by decide, by decide⟩
  norm_num [searchEndpointHits, searchMemoriesService, qdrantSearch,
    sortByScore, insertByScore, matchesFilter, pyOrFloat, bugPoint,
    otherCallerId, hardcodedSearchUserId]

/-- C10.  An explicit `score_threshold` of 0.0 is indistinguishable from
omitting it, for both the semantic-search and chatbot endpoints: the
effective threshold is `request.score_threshold or 0.01` (memory.py lines
132 and 214), Python `or` treats 0.0 as falsy, so the threshold becomes
0.01 and every returned hit has score at least 0.01 — results with score
in [0, 0.01) are excluded even when the caller asked for threshold 0. -/
theorem C10_zero_threshold_indistinguishable :
    (∀ (store : List (StoredPoint × ℚ)) (cur : String) (limit : ℕ)
        (df dt : Option Int),
      searchEndpointHits store cur limit df dt (some 0)
        = searchEndpointHits store cur limit df dt none)
    ∧ (∀ (store : List (StoredPoint × ℚ)) (cur : String),
      chatbotEndpointHits store cur (some 0) = chatbotEndpointHits store cur none)
    ∧ (∀ (store : List (StoredPoint × ℚ)) (cur : String) (limit : ℕ)
        (df dt : Option Int) (hit : StoredPoint × ℚ),
      hit ∈ searchEndpointHits store cur limit df dt (some 0) →
        (1:ℚ)/100 ≤ hit.2) := by
  refine ⟨fun store cur limit df dt => rfl, fun store cur => rfl,
    fun store cur limit df dt hit h => ?_⟩
  have := (qdrantSearch_sound h).2
  simpa [pyOrFloat] using this

/-- Witness for C10: the hypothesis-bearing conjunct applied at a concrete
input — a store holding one point of the hardcoded user with score 1/2 is
returned under an explicit threshold of 0, and its score is ≥ 1/100. -/
theorem C10_zero_threshold_indistinguishable_witness :
    (1:ℚ)/100 ≤ ((bugPoint, (1:ℚ)/2) : StoredPoint × ℚ).2 :=
  C10_zero_threshold_indistinguishable.2.2 [(bugPoint, (1:ℚ)/2)]
    otherCallerId 10 none none (bugPoint, (1:ℚ)/2)
    (by norm_num [searchEndpointHits, searchMemoriesService, qdrantSearch,
      sortByScore, insertByScore, matchesFilter, pyOrFloat, bugPoint,
      hardcodedSearchUserId])


/-- C2.  The claim says the payload `user_id` of every vector point created
by the background embedding path equals the `user_id` on the relational
row with the same `video_id` (the job metadata's user).  The code refutes
this: `store_embedding_in_vector_db` (worker.py line 681) hardcodes
`user_id = "3561affa-b551-483c-be4d-a35c7b57a3fb"` — against its own
`TODO: Get user_id from metadata` (line 557) — while
`insert_video_analysis` stores the job's `user_id`.  Evaluated at a
concrete failing input: a job owned by `11111111-1111-1111-1111-111111111111`
processed in a fully healthy environment. -/
theorem C2_vector_payload_user_mismatch :
    ((processVideoSegment envOk jobU1).2.vectorPoint.map
        (fun p => p.payload_user_id)) = some workerHardcodedUserId
  ∧ ((processVideoSegment envOk jobU1).2.insertedRow.map
        (fun r => r.user_id)) = some (some otherCallerId)
  ∧ workerHardcodedUserId ≠ otherCallerId := by
  exact ⟨rfl, rfl, by decide⟩

/-- C3 counterexample.  The claim says a job whose summary generation fails
on all 3 attempts is abandoned with no relational row and no
`processed_count` increment.  At the concrete input `envSummaryFail` /
`jobU1` the row IS inserted and the count IS incremented, so the
conjunction the claim asserts is false. -/
theorem C3_counterexample_summary_failure_commits :
    ¬ ((processVideoSegment envSummaryFail jobU1).2.insertedRow = none
        ∧ processLoopStep 0 (processVideoSegment envSummaryFail jobU1).1 = 0) := by
  decide

/-- C3 (amended).  When all 3 summary attempts fail,
`analyze_video_optimized` does not raise: it returns a record whose
`detailed_summary` is the string `Error after 3 attempts: {e}` and no
`error` key.  The job is NOT abandoned — the relational row is still
inserted (when the insert succeeds) and `processed_count` is
incremented. -/
theorem C3_summary_failure_still_commits
    (env : WorkerEnv) (job : Job) (e0 e1 e2 v : String) (c : ℕ)
    (hf : env.fileExists = true) (hu : env.uploadResult = some v)
    (hg0 : env.gen 0 = .error e0) (hg1 : env.gen 1 = .error e1)
    (hg2 : env.gen 2 = .error e2) (hs : env.supabaseInsertOk = true) :
    ∃ a : Analysis,
      (processVideoSegment env job).1 = .okRes a env.s3Result true
      ∧ a.detailed_summary = "Error after 3 attempts: " ++ e2
      ∧ (processVideoSegment env job).2.insertedRow
          = some (insertVideoAnalysisRow a env.s3Result env.fileSize
              env.processedAt job.user_id)
      ∧ processLoopStep c (processVideoSegment env job).1 = c + 1 := by
  have hlit : "Error after " ++ toString (3:ℕ) ++ " attempts: "
      = "Error after 3 attempts: " := by decide
  refine ⟨analyzeVideoOptimized env.gen env.linking_uuid job.timestamp,
    ?_, ?_, ?_, ?_⟩ <;>
    simp [processVideoSegment, hf, hu, hs, processLoopStep,
      analyzeVideoOptimized, summaryLoop, hg0, hg1, hg2,
      ← hlit, String.append_assoc]

/-- Witness for C3: the amended theorem applied at the concrete failing
environment. -/
theorem C3_summary_failure_still_commits_witness :
    ∃ a : Analysis,
      (processVideoSegment envSummaryFail jobU1).1
          = .okRes a envSummaryFail.s3Result true
      ∧ a.detailed_summary
          = "Error after 3 attempts: " ++ "generate.text unavailable"
      ∧ (processVideoSegment envSummaryFail jobU1).2.insertedRow
          = some (insertVideoAnalysisRow a envSummaryFail.s3Result
              envSummaryFail.fileSize envSummaryFail.processedAt jobU1.user_id)
      ∧ processLoopStep 7 (processVideoSegment envSummaryFail jobU1).1 = 7 + 1 :=
  C3_summary_failure_still_commits envSummaryFail jobU1
    "generate.text unavailable" "generate.text unavailable"
    "generate.text unavailable" "tl-video-123" 7 rfl rfl rfl rfl rfl rfl

/-- C6.  A job whose ingest task reports terminal `failed` or `error`:
the polling loop returns `None` on those statuses, and a `None` upload
result makes `process_video_segment` return an error dict before any
insert — no relational row, no vector point, no automation dispatch,
`processed_count` unchanged, and the loop body proceeds to the next pop
(only cancellation breaks the loop). -/
theorem C6_ingest_terminal_failure_no_effects :
    (∀ (p0 : ℚ) (s : PollState) (l : ℚ),
        pollStep p0 s (.failed l) = Sum.inr none
      ∧ pollStep p0 s (.errorStatus l) = Sum.inr none)
    ∧ (∀ (env : WorkerEnv) (job : Job) (c : ℕ),
        env.fileExists = true → env.uploadResult = none →
        (processVideoSegment env job).2
            = ⟨none, none, false⟩
        ∧ processLoopStep c (processVideoSegment env job).1 = c) := by
  refine ⟨fun p0 s l => ⟨rfl, rfl⟩, fun env job c hf hu => ?_⟩
  constructor <;> simp [processVideoSegment, hf, hu, processLoopStep]

/-- Witness for C6: the pipeline conjunct applied at the concrete
ingest-failure environment. -/
theorem C6_ingest_terminal_failure_no_effects_witness :
    (processVideoSegment envIngestFail jobU1).2 = ⟨none, none, false⟩
    ∧ processLoopStep 5 (processVideoSegment envIngestFail jobU1).1 = 5 :=
  C6_ingest_terminal_failure_no_effects.2 envIngestFail jobU1 5 rfl rfl

/-- C5.  The adaptive wait-for-ready loop as invoked with
`polling_interval = 0.5`:
(i) the initial interval is 0.5 s;
(ii) every poll is issued strictly before 180 s of elapsed time;
(iii) on a `pending` (other) status the interval becomes
`min 2.0 (interval × 1.2)`, the sleep is at most 2 s (so at least one
poll occurs every 2 s while pending) and the failure counter resets;
(iv) on `processing` the interval is clamped at 0.5 s, the sleep is at
most 0.5 s, and the failure counter resets;
(v) the k-th consecutive transport error (a state with `failures = k-1`)
sleeps `min 2.0 (0.1 × 2^k)` and moves the counter to k, and any
successful status retrieval resets the counter to 0. -/
theorem C5_adaptive_polling_discipline :
    (pollInit (1/2)).interval = 1/2
  ∧ (∀ (p0 : ℚ) (obs : List PollObs) (s : PollState) (t : ℚ),
      t ∈ (pollRun p0 obs s).2 → t < 180)
  ∧ (∀ (p0 : ℚ) (s : PollState) (l : ℚ),
      pollStep p0 s (.pending l)
          = Sum.inl ⟨s.elapsed + l + min 2 (s.interval * (6/5)),
              min 2 (s.interval * (6/5)), 0⟩
      ∧ pollSleep p0 s (.pending l) ≤ 2)
  ∧ (∀ (s : PollState) (l : ℚ),
      pollStep (1/2) s (.processing l)
          = Sum.inl ⟨s.elapsed + l + min (1/2) s.interval,
              min (1/2) s.interval, 0⟩
      ∧ pollSleep (1/2) s (.processing l) ≤ 1/2)
  ∧ (∀ (p0 : ℚ) (s : PollState) (k : ℕ) (l : ℚ), s.failures = k - 1 →
      1 ≤ k →
      pollStep p0 s (.transport l)
          = Sum.inl ⟨s.elapsed + l + min 2 ((1/10) * 2 ^ k),
              s.interval, k⟩) := by
  refine ⟨rfl, ?_, ?_, ?_, ?_⟩
  · intro p0 obs
    induction obs with
    | nil => intro s t ht; simp [pollRun] at ht
    | cons o rest ih =>
      intro s t ht
      by_cases hg : s.elapsed < 180
      · simp only [pollRun, if_pos hg] at ht
        cases hstep : pollStep p0 s o with
        | inr r =>
          rw [hstep] at ht
          simp only [List.mem_singleton] at ht
          exact ht ▸ hg
        | inl s2 =>
          rw [hstep] at ht
          simp only [List.mem_cons] at ht
          rcases ht with ht | ht
          · exact ht ▸ hg
          · exact ih s2 t ht
      · simp [pollRun, if_neg hg] at ht
  · intro p0 s l
    exact ⟨rfl, min_le_left _ _⟩
  · intro s l
    exact ⟨rfl, min_le_left _ _⟩
  · intro p0 s k l hk h1
    have : s.failures + 1 = k := by omega
    simp [pollStep, pollSleep, this]

/-- Witness for C5: the timed-poll conjunct applied to a concrete run of
three observations, and the transport conjunct at a concrete state. -/
theorem C5_adaptive_polling_discipline_witness :
    (0:ℚ) < 180
    ∧ pollStep 1 ⟨3, 1, 1⟩ (.transport 0)
        = Sum.inl ⟨3 + 0 + min 2 ((1/10) * 2 ^ 2), 1, 2⟩ :=
  ⟨C5_adaptive_polling_discipline.2.1 (1/2) [.pending 0, .transport 0]
      (pollInit (1/2)) 0
      (by norm_num [pollRun, pollStep, pollSleep, pollInit]),
    C5_adaptive_polling_discipline.2.2.2.2 1 ⟨3, 1, 1⟩ 2 0 rfl (by norm_num)⟩


/-! Helper lemmas for the padding invariant. -/

theorem padFrames_spec {fps segment_duration : ℕ} {frames : List (LifeOS.Frame × ℚ)}
    (hne : frames ≠ []) (hlt : frames.length < fps * segment_duration) :
    (LifeOS.padFrames fps segment_duration frames).length = fps * segment_duration
    ∧ ∀ ft ∈ LifeOS.padFrames fps segment_duration frames,
        ft.1 ∈ frames.map Prod.fst := by
  have hlast : frames.getLast? = some (frames.getLast hne) :=
    List.getLast?_eq_getLast frames hne
  unfold LifeOS.padFrames
  rw [if_pos ⟨hlt, hne⟩, hlast]
  constructor
  · rw [List.length_append, List.length_map, List.length_range]
    omega
  · intro ft hft
    rcases List.mem_append.mp hft with h | h
    · exact List.mem_map_of_mem Prod.fst h
    · rcases List.mem_map.mp h with ⟨j, _, hj⟩
      have : ft.1 = (frames.getLast hne).1 := by rw [← hj]
      rw [this]
      exact List.mem_map_of_mem Prod.fst (List.getLast_mem hne)

/-- C4.  For every non-empty frame list shorter than
`fps × segment_duration` whose frames are all valid (not `None`, positive
size), the builder pads with copies of the last frame: the container holds
exactly `fps × segment_duration` frames, and the reported `frame_count`
and `duration_seconds` reflect the padded count. -/
theorem C4_padding_invariant (fps segment_duration : ℕ)
    (frames : List (LifeOS.Frame × ℚ)) (audio : List String) (segment_id : ℕ)
    (hne : frames ≠ []) (hlt : frames.length < fps * segment_duration)
    (hvalid : ∀ ft ∈ frames, ft.1.isNone = false ∧ 0 < ft.1.size) :
    ∃ r : LifeOS.SegmentResult,
      LifeOS.createVideoSegment fps segment_duration frames audio segment_id
          = some r
      ∧ r.info.frame_count = fps * segment_duration
      ∧ r.containerFrames = fps * segment_duration
      ∧ r.info.duration_seconds
          = ((fps * segment_duration : ℕ) : ℚ) / (fps : ℚ) := by
  obtain ⟨hlen, hmem⟩ := padFrames_spec hne hlt
  have hallvalid : ∀ ft ∈ LifeOS.padFrames fps segment_duration frames,
      (!ft.1.isNone && decide (0 < ft.1.size)) = true := by
    intro ft hft
    rcases List.mem_map.mp (hmem ft hft) with ⟨p, hp, hfst⟩
    have := hvalid p hp
    simp [← hfst, this.1, this.2]
  have hfilter : (LifeOS.padFrames fps segment_duration frames).filter
      (fun ft => !ft.1.isNone && decide (0 < ft.1.size))
        = LifeOS.padFrames fps segment_duration frames :=
    List.filter_eq_self.mpr hallvalid
  unfold LifeOS.createVideoSegment
  rw [if_neg hne]
  refine ⟨_, rfl, hlen, ?_, ?_⟩
  · show ((LifeOS.padFrames fps segment_duration frames).filter
        (fun ft => !ft.1.isNone && decide (0 < ft.1.size))).length
        = fps * segment_duration
    rw [hfilter, hlen]
  · show ((LifeOS.padFrames fps segment_duration frames).length : ℚ) / (fps : ℚ)
        = ((fps * segment_duration : ℕ) : ℚ) / (fps : ℚ)
    rw [hlen]

/-- Witness for C4: three valid frames at 10 fps over a 10 s segment pad
to 100 frames. -/
theorem C4_padding_invariant_witness :
    ∃ r : LifeOS.SegmentResult,
      LifeOS.createVideoSegment 10 10
          [(⟨false, 4⟩, (0:ℚ)), (⟨false, 4⟩, 1), (⟨false, 4⟩, 2)]
          ["chunk0"] 1 = some r
      ∧ r.info.frame_count = 10 * 10
      ∧ r.containerFrames = 10 * 10
      ∧ r.info.duration_seconds = ((10 * 10 : ℕ) : ℚ) / (10 : ℚ) :=
  C4_padding_invariant 10 10
    [(⟨false, 4⟩, (0:ℚ)), (⟨false, 4⟩, 1), (⟨false, 4⟩, 2)] ["chunk0"] 1
    (by decide) (by decide) (by decide)


/-- C7.  The claim says a descriptive time maps the hour (`morning` →
09:00 etc.).  The code refutes this: the descriptive branches set the
local variable `target_time` but never write it into `target_date`
(calendar_integration.py lines 309-316, against their own `# 9 AM` ...
`# 8 PM` comments), and the 10:00 default is skipped because
`target_time` is not `None` — so a `today morning` event parses to
midnight, not 09:00.  The claim's other half does hold: a time string
from which no hour is parsed defaults the hour to 10. -/
theorem C7_descriptive_time_ignored :
    (LifeOS.parseEventDatetime (some LifeOS.todayDate)
        (some LifeOS.morningTime) LifeOS.someNow).hour = 0
    ∧ (0 : ℕ) ≠ 9
    ∧ (LifeOS.parseEventDatetime (some LifeOS.todayDate)
        (some LifeOS.vagueTime) LifeOS.someNow).hour = 10 := by
  exact ⟨rfl, by decide, rfl⟩


/-- C8.  For every date string whose date branch resolves to the weekday
`w` (it contains the weekday name and none of the keywords checked
earlier in the chain), and for every current date, the parsed date is the
next occurrence of `w` strictly in the future: `base + d` days with
`1 ≤ d ≤ 7`, the result falls on weekday `w`, and `d = 7` exactly when
today already is that weekday. -/
theorem C8_weekday_resolves_to_next_occurrence
    (ds : LifeOS.DateStr) (w : ℕ) (base : LifeOS.PyDateTime) (hw7 : w < 7)
    (h1 : ds.hasToday = false) (h2 : ds.hasTomorrow = false)
    (h3 : ds.hasNextWeek = false) (h4 : ds.hasNextMonth = false)
    (h5 : ∀ j : Fin 7, j.val < w → ds.hasWeekday j.val = false)
    (h6 : ds.hasWeekday w = true) :
    ∃ d : Int,
      LifeOS.parseDateChain ds base = base.addDays d
      ∧ 1 ≤ d ∧ d ≤ 7
      ∧ (base.addDays d).weekday = (w : Int)
      ∧ (d = 7 ↔ base.weekday = (w : Int)) := by
  have hchain : LifeOS.parseDateChain ds base = LifeOS.nextWeekday base w := by
    interval_cases w
    · simp [LifeOS.parseDateChain, h1, h2, h3, h4, h6]
    · simp [LifeOS.parseDateChain, h1, h2, h3, h4, h6,
        h5 ⟨0, by decide⟩ (by decide)]
    · simp [LifeOS.parseDateChain, h1, h2, h3, h4, h6,
        h5 ⟨0, by decide⟩ (by decide), h5 ⟨1, by decide⟩ (by decide)]
    · simp [LifeOS.parseDateChain, h1, h2, h3, h4, h6,
        h5 ⟨0, by decide⟩ (by decide), h5 ⟨1, by decide⟩ (by decide),
        h5 ⟨2, by decide⟩ (by decide)]
    · simp [LifeOS.parseDateChain, h1, h2, h3, h4, h6,
        h5 ⟨0, by decide⟩ (by decide), h5 ⟨1, by decide⟩ (by decide),
        h5 ⟨2, by decide⟩ (by decide), h5 ⟨3, by decide⟩ (by decide)]
    · simp [LifeOS.parseDateChain, h1, h2, h3, h4, h6,
        h5 ⟨0, by decide⟩ (by decide), h5 ⟨1, by decide⟩ (by decide),
        h5 ⟨2, by decide⟩ (by decide), h5 ⟨3, by decide⟩ (by decide),
        h5 ⟨4, by decide⟩ (by decide)]
    · simp [LifeOS.parseDateChain, h1, h2, h3, h4, h6,
        h5 ⟨0, by decide⟩ (by decide), h5 ⟨1, by decide⟩ (by decide),
        h5 ⟨2, by decide⟩ (by decide), h5 ⟨3, by decide⟩ (by decide),
        h5 ⟨4, by decide⟩ (by decide), h5 ⟨5, by decide⟩ (by decide)]
  rw [hchain]
  unfold LifeOS.nextWeekday
  have hw : (w : Int) < 7 := by exact_mod_cast hw7
  have hw0 : (0 : Int) ≤ (w : Int) := Int.ofNat_nonneg _
  refine ⟨_, rfl, ?_, ?_, ?_, ?_⟩ <;>
    · simp only [LifeOS.PyDateTime.weekday, LifeOS.PyDateTime.addDays]
      split <;> omega

/-- Witness for C8: `thursday` parsed on a Tuesday (day 20000 ≡ 1 mod 7)
lands two days ahead. -/
theorem C8_weekday_resolves_to_next_occurrence_witness :
    ∃ d : Int,
      LifeOS.parseDateChain LifeOS.thursdayDate
          { day := 20000, hour := 0, minute := 0 }
        = LifeOS.PyDateTime.addDays { day := 20000, hour := 0, minute := 0 } d
      ∧ 1 ≤ d ∧ d ≤ 7
      ∧ (LifeOS.PyDateTime.addDays
            { day := 20000, hour := 0, minute := 0 } d).weekday
          = ((3 : ℕ) : Int)
      ∧ (d = 7 ↔
          LifeOS.PyDateTime.weekday { day := 20000, hour := 0, minute := 0 }
            = ((3 : ℕ) : Int)) :=
  C8_weekday_resolves_to_next_occurrence LifeOS.thursdayDate 3
    { day := 20000, hour := 0, minute := 0 }
    (by decide) rfl rfl rfl rfl (by decide) (by decide)


/-! Helper lemmas for the list-videos ordering. -/

theorem mem_insertByCreated {x z : LifeOS.StoredVideoRow}
    {l : List LifeOS.StoredVideoRow} (h : z ∈ LifeOS.insertByCreated x l) :
    z = x ∨ z ∈ l := by
  induction l with
  | nil => simpa [LifeOS.insertByCreated] using h
  | cons y ys ih =>
    by_cases hc : y.created_at ≤ x.created_at
    · simp only [LifeOS.insertByCreated, if_pos hc, List.mem_cons] at h
      rcases h with h | h | h
      · exact Or.inl h
      · exact Or.inr (by simp [h])
      · exact Or.inr (List.mem_cons_of_mem y h)
    · simp only [LifeOS.insertByCreated, if_neg hc, List.mem_cons] at h
      rcases h with h | h
      · exact Or.inr (by simp [h])
      · rcases ih h with h | h
        · exact Or.inl h
        · exact Or.inr (List.mem_cons_of_mem y h)

theorem mem_sortByCreated {z : LifeOS.StoredVideoRow}
    {l : List LifeOS.StoredVideoRow} (h : z ∈ LifeOS.sortByCreated l) :
    z ∈ l := by
  induction l with
  | nil => simp [LifeOS.sortByCreated] at h
  | cons y ys ih =>
    rcases mem_insertByCreated h with h | h
    · simp [h]
    · exact List.mem_cons_of_mem y (ih h)

theorem pairwise_insertByCreated {x : LifeOS.StoredVideoRow}
    {l : List LifeOS.StoredVideoRow}
    (h : l.Pairwise (fun a b => b.created_at ≤ a.created_at)) :
    (LifeOS.insertByCreated x l).Pairwise
      (fun a b => b.created_at ≤ a.created_at) := by
  induction l with
  | nil => simp [LifeOS.insertByCreated]
  | cons y ys ih =>
    rw [List.pairwise_cons] at h
    by_cases hc : y.created_at ≤ x.created_at
    · simp only [LifeOS.insertByCreated, if_pos hc]
      refine List.Pairwise.cons ?_ (List.Pairwise.cons h.1 h.2)
      intro z hz
      rcases List.mem_cons.mp hz with rfl | hz
      · exact hc
      · exact le_trans (h.1 z hz) hc
    · simp only [LifeOS.insertByCreated, if_neg hc]
      refine List.Pairwise.cons ?_ (ih h.2)
      intro z hz
      rcases mem_insertByCreated hz with rfl | hz
      · exact le_of_not_le hc
      · exact h.1 z hz

theorem pairwise_sortByCreated (l : List LifeOS.StoredVideoRow) :
    (LifeOS.sortByCreated l).Pairwise
      (fun a b => b.created_at ≤ a.created_at) := by
  induction l with
  | nil => simp [LifeOS.sortByCreated]
  | cons y ys ih => exact pairwise_insertByCreated ih

/-- C9 counterexample.  The claim says every returned row with a non-null
`s3_link` has it rewritten through the presigned-URL function.  At the
concrete input — one stored row with a bare S3 URL — `GET /videos`
returns the link exactly as stored, which differs from its presigned
form. -/
theorem C9_counterexample_no_presign_on_list :
    (LifeOS.getUserVideosEndpoint [LifeOS.dbRowA] LifeOS.otherCallerId 50 0).map
        (fun r => r.row.s3_link) = [some LifeOS.storedUrl]
    ∧ LifeOS.presignUrl LifeOS.storedUrl ≠ LifeOS.storedUrl := by
  exact ⟨rfl, by decide⟩

/-- C9 (amended).  `GET /videos` returns at most `limit` rows, all
belonging to the authenticated user, ordered by `created_at` descending
with `offset` rows skipped — and each row is returned exactly as stored:
in particular a non-null `s3_link` is NOT rewritten through the
presigned-URL function on this path. -/
theorem C9_list_videos_returns_rows_as_stored
    (db : List LifeOS.StoredVideoRow) (uid : String) (limit offset : ℕ) :
    (LifeOS.getUserVideosEndpoint db uid limit offset).length ≤ limit
    ∧ (∀ r ∈ LifeOS.getUserVideosEndpoint db uid limit offset,
        r.row.user_id = some uid ∧ r ∈ db)
    ∧ (LifeOS.getUserVideosEndpoint db uid limit offset).Pairwise
        (fun a b => b.created_at ≤ a.created_at) := by
  refine ⟨List.length_take_le _ _, ?_, ?_⟩
  · intro r hr
    have h1 := List.mem_of_mem_take hr
    have h2 := List.mem_of_mem_drop h1
    have h3 := mem_sortByCreated h2
    constructor
    · have := List.of_mem_filter h3
      simpa using this
    · exact List.mem_of_mem_filter h3
  · have hsorted := pairwise_sortByCreated
      (db.filter (fun r => r.row.user_id == some uid))
    have hsub : List.Sublist (LifeOS.getUserVideosEndpoint db uid limit offset)
        (LifeOS.sortByCreated (db.filter (fun r => r.row.user_id == some uid))) :=
      (List.take_sublist _ _).trans (List.drop_sublist _ _)
    exact hsorted.sublist hsub

/-- Witness for C9: the amended theorem applied at the one-row store. -/
theorem C9_list_videos_returns_rows_as_stored_witness :
    LifeOS.dbRowA.row.user_id = some LifeOS.otherCallerId
    ∧ LifeOS.dbRowA ∈ [LifeOS.dbRowA] :=
  (C9_list_videos_returns_rows_as_stored [LifeOS.dbRowA]
    LifeOS.otherCallerId 50 0).2.1 LifeOS.dbRowA (by decide)
